import Mathlib

/-!
Shallow embedding of `src/zhmcclient/_partition.py`: the `PartitionManager`
and `Partition` classes of the zhmcclient repository, together with the
parts of the repository they depend on (`BaseManager`, `BaseResource`, the
`Cpc` resource and the `Session` HTTP abstraction) which are not part of
the given sources and are therefore modelled from the specification.

Python values exchanged with the HTTP layer are JSON values; Python
run-time failures (KeyError, TypeError, AssertionError) and the exceptions
raised by the session layer are modelled by an explicit error type, and
every operation returns, next to its result, the list of HTTP requests it
issued to the session, in order.
-/

/-- JSON values, as produced by the HTTP session layer and stored as
resource properties. -/
inductive Json where
  | null
  | bool (b : Bool)
  | num (n : Int)
  | str (s : String)
  | arr (elems : List Json)
  | obj (fields : List (String × Json))

/-- Python truthiness of a JSON value: `None`, `False`, `0`, `""`, `[]`
and `{}` are falsy, everything else is truthy.  Used by the
`if partitions_res:` test in `PartitionManager.list`. -/
def Json.falsy : Json → Bool
  | .null => true
  | .bool b => !b
  | .num n => n == 0
  | .str s => s == ""
  | .arr elems => elems.isEmpty
  | .obj fields => fields.isEmpty

/-- Errors raised by the session layer, per the `Raises:` sections of the
source docstrings: `HTTPError`, `ParseError`, `AuthError`,
`ConnectionError`. -/
inductive SessionError where
  | httpError (status reason : Nat)
  | parseError (msg : String)
  | authError (msg : String)
  | connectionError (msg : String)

/-- Python errors that an operation of `_partition.py` can propagate:
an error raised by the session layer (passed through unmodified), a
`KeyError` from subscripting a mapping with a missing key, a `TypeError`
from subscripting or concatenating a value of the wrong type, and an
`AssertionError` from a failed `assert` statement. -/
inductive PyError where
  | session (e : SessionError)
  | keyError (key : String)
  | typeError
  | assertionError

/-- Python subscripting `value[key]` with a string key: a mapping yields
the value of the key or raises `KeyError`; any non-mapping raises
`TypeError`. -/
def Json.getItem : Json → String → Except PyError Json
  | .obj fields, key =>
      match fields.find? (fun p => p.1 == key) with
      | some p => .ok p.2
      | none => .error (.keyError key)
  | _, _ => .error .typeError

/-- Python `value + '...'` string concatenation and passing a URI to the
session: the value must be a string, otherwise `TypeError`. -/
def Json.expectStr : Json → Except PyError String
  | .str s => .ok s
  | _ => .error .typeError

/-- Python iteration `for x in value`: a list yields its elements, a
mapping yields its keys (as strings, in insertion order), a string yields
its characters as one-character strings; other values raise `TypeError`. -/
def Json.iterate : Json → Except PyError (List Json)
  | .arr elems => .ok elems
  | .obj fields => .ok (fields.map (fun p => Json.str p.1))
  | .str s => .ok (s.toList.map (fun c => Json.str (String.mk [c])))
  | _ => .error .typeError

/-- An HTTP request issued to the session layer: the method, the target
URI, and for POST the optional body and the wait-for-completion flag. -/
inductive Request where
  | get (uri : String)
  | post (uri : String) (body : Option Json) (wait_for_completion : Bool)
  | delete (uri : String)

/-- Modelled from the spec: the externally supplied session abstraction
("Both defer all network I/O to an externally supplied session abstraction
(not part of this core)").  A session maps each request it is given to
either a JSON response or a raised session error; requests are addressed
by URI string. -/
structure Session where
  getResp : String → Except SessionError Json
  postResp : String → Option Json → Bool → Except SessionError Json
  deleteResp : String → Except SessionError Json

/-- Modelled from the spec: the parent CPC resource, "a data class holding
a mapping of property names to values" — here the stored JSON property
mapping of the CPC. -/
structure Cpc where
  properties : Json

/-- Modelled from the spec: `BaseResource.get_property` — lookup of a
property name in the stored mapping of property names to values; a missing
name raises `KeyError`, as Python mapping subscripting does. -/
def Cpc.get_property (self : Cpc) (name : String) : Except PyError Json :=
  self.properties.getItem name

/-- `PartitionManager`: manager object for partitions, scoped to the
partitions of a particular CPC.  Modelled from the spec for the part not
in the sources: `BaseManager.__init__` stores the parent object defining
the scope ("a collection manager enumerating and creating resources
scoped to a parent"). -/
structure PartitionManager where
  _parent : Cpc

/-- `PartitionManager.__init__(cpc)`: delegates to `BaseManager.__init__`,
which stores the CPC as the parent. -/
def PartitionManager.init (cpc : Cpc) : PartitionManager :=
  { _parent := cpc }

/-- The `cpc` property of `PartitionManager`: `return self._parent`. -/
def PartitionManager.cpc (self : PartitionManager) : Cpc :=
  self._parent

/-- A value passed as the `manager` argument of `Partition.__init__`:
either an actual `PartitionManager`, or (modelled from the spec, which
describes further manager classes of the repository outside this core) a
Python object of any other type, identified here only by a tag. -/
inductive PyManager where
  | partitionManager (m : PartitionManager)
  | other (tag : String)

/-- `Partition`: representation of a partition.  Modelled from the spec
for the part not in the sources: `BaseResource.__init__` stores the
manager object and the property mapping ("a resource handle wrapping a
single resource's properties"). -/
structure Partition where
  manager : PartitionManager
  properties : Json

/-- `Partition.__init__(manager, properties)`:
`assert isinstance(manager, PartitionManager)` — a manager of any other
type fails the assertion — then delegates to `BaseResource.__init__`. -/
def Partition.init (manager : PyManager) (properties : Json) :
    Except PyError Partition :=
  match manager with
  | .partitionManager m => .ok { manager := m, properties := properties }
  | .other _ => .error .assertionError

/-- Modelled from the spec: `BaseResource.get_property` for partitions —
lookup of a property name in the stored mapping, `KeyError` on absence. -/
def Partition.get_property (self : Partition) (name : String) :
    Except PyError Json :=
  self.properties.getItem name

/-- Modelled from the spec: `BaseResource.pull_full_properties` — "the
full set of resource properties should be retrieved": issues a GET on the
resource's `object-uri` and replaces the stored property mapping with the
response.  Returns the outcome, the state of the partition object after
the call, and the requests issued. -/
def Partition.pull_full_properties (self : Partition) (session : Session) :
    Except PyError Unit × Partition × List Request :=
  match (self.get_property "object-uri").bind Json.expectStr with
  | .error e => (.error e, self, [])
  | .ok uri =>
      match session.getResp uri with
      | .error e => (.error (.session e), self, [.get uri])
      | .ok full => (.ok (), { self with properties := full }, [.get uri])

/-- The loop body of `PartitionManager.list`: for each element of the
`'partitions'` member, construct `Partition(self, partition_props)`, pull
its full properties when `full_properties` is set, and append it to the
result list; the first error aborts the loop and propagates. -/
def buildPartitions (self : PartitionManager) (session : Session)
    (full_properties : Bool) :
    List Json → Except PyError (List Partition) × List Request
  | [] => (.ok [], [])
  | props :: rest =>
      match Partition.init (.partitionManager self) props with
      | .error e => (.error e, [])
      | .ok partition =>
          if full_properties then
            match partition.pull_full_properties session with
            | (.error e, _, reqs) => (.error e, reqs)
            | (.ok _, partition2, reqs) =>
                match buildPartitions self session full_properties rest with
                | (res, reqs2) =>
                    (res.map (fun l => partition2 :: l), reqs ++ reqs2)
          else
            match buildPartitions self session full_properties rest with
            | (res, reqs2) => (res.map (fun l => partition :: l), reqs2)

/-- `PartitionManager.list(full_properties)`: GET on the CPC's
`object-uri` plus `'/partitions'`; a falsy response yields the empty list;
otherwise the `'partitions'` member is iterated and each element becomes a
`Partition` (with its full properties pulled when requested). -/
def PartitionManager.list (self : PartitionManager) (session : Session)
    (full_properties : Bool) :
    Except PyError (List Partition) × List Request :=
  match (self.cpc.get_property "object-uri").bind Json.expectStr with
  | .error e => (.error e, [])
  | .ok cpc_uri =>
      let uri := cpc_uri ++ "/partitions"
      match session.getResp uri with
      | .error e => (.error (.session e), [.get uri])
      | .ok partitions_res =>
          if partitions_res.falsy then (.ok [], [.get uri])
          else
            match partitions_res.getItem "partitions" with
            | .error e => (.error e, [.get uri])
            | .ok partition_items =>
                match partition_items.iterate with
                | .error e => (.error e, [.get uri])
                | .ok items =>
                    match buildPartitions self session full_properties items with
                    | (res, reqs) => (res, .get uri :: reqs)

/-- `PartitionManager.create(properties)`: POST the given properties as
the body to the CPC's `object-uri` plus `'/partitions'`, and return the
`'object-uri'` member of the response. -/
def PartitionManager.create (self : PartitionManager) (session : Session)
    (properties : Json) : Except PyError Json × List Request :=
  match (self.cpc.get_property "object-uri").bind Json.expectStr with
  | .error e => (.error e, [])
  | .ok cpc_uri =>
      let uri := cpc_uri ++ "/partitions"
      match session.postResp uri (some properties) true with
      | .error e => (.error (.session e), [.post uri (some properties) true])
      | .ok result => (result.getItem "object-uri",
                       [.post uri (some properties) true])

/-- `Partition.start(wait_for_completion)`: POST to the partition's
`object-uri` plus `'/operations/start'` and return the JSON response
unchanged.  The second component is the state of the partition object
after the call (the method body contains no assignment to the object's
state). -/
def Partition.start (self : Partition) (session : Session)
    (wait_for_completion : Bool) :
    Except PyError Json × Partition × List Request :=
  match (self.get_property "object-uri").bind Json.expectStr with
  | .error e => (.error e, self, [])
  | .ok partition_uri =>
      let uri := partition_uri ++ "/operations/start"
      match session.postResp uri none wait_for_completion with
      | .error e => (.error (.session e), self,
                     [.post uri none wait_for_completion])
      | .ok result => (.ok result, self, [.post uri none wait_for_completion])

/-- `Partition.stop(wait_for_completion)`: POST to the partition's
`object-uri` plus `'/operations/stop'` and return the JSON response
unchanged.  The second component is the state of the partition object
after the call. -/
def Partition.stop (self : Partition) (session : Session)
    (wait_for_completion : Bool) :
    Except PyError Json × Partition × List Request :=
  match (self.get_property "object-uri").bind Json.expectStr with
  | .error e => (.error e, self, [])
  | .ok partition_uri =>
      let uri := partition_uri ++ "/operations/stop"
      match session.postResp uri none wait_for_completion with
      | .error e => (.error (.session e), self,
                     [.post uri none wait_for_completion])
      | .ok result => (.ok result, self, [.post uri none wait_for_completion])

/-- `Partition.delete()`: issue a DELETE on the partition's `object-uri`;
the response is discarded.  The second component is the state of the
partition object after the call. -/
def Partition.delete (self : Partition) (session : Session) :
    Except PyError Unit × Partition × List Request :=
  match (self.get_property "object-uri").bind Json.expectStr with
  | .error e => (.error e, self, [])
  | .ok partition_uri =>
      match session.deleteResp partition_uri with
      | .error e => (.error (.session e), self, [.delete partition_uri])
      | .ok _ => (.ok (), self, [.delete partition_uri])

/-- `Partition.update_properties(properties)`: POST the given properties
as the body to the partition's `object-uri`; the response is discarded.
The second component is the state of the partition object after the call
(the method body contains no assignment to the object's state: the new
property values are not applied locally). -/
def Partition.update_properties (self : Partition) (session : Session)
    (properties : Json) : Except PyError Unit × Partition × List Request :=
  match (self.get_property "object-uri").bind Json.expectStr with
  | .error e => (.error e, self, [])
  | .ok partition_uri =>
      match session.postResp partition_uri (some properties) true with
      | .error e => (.error (.session e), self,
                     [.post partition_uri (some properties) true])
      | .ok _ => (.ok (), self, [.post partition_uri (some properties) true])

/-! ### Derived notions and concrete test fixtures -/

/-- The error of an operation's outcome, when it raised one. -/
def errOf {α : Type} : Except PyError α → Option PyError
  | .error e => some e
  | .ok _ => none

/-- The error a session response would propagate: a raised session error,
passed through as a `PyError.session`, or nothing on success. -/
def sessErrOf : Except SessionError Json → Option PyError
  | .error e => some (.session e)
  | .ok _ => none

/-- Whether an outcome is a failed assertion. -/
def isAssertionError {α : Type} : Except PyError α → Bool
  | .error .assertionError => true
  | _ => false

/-- A concrete CPC: its property mapping holds an object URI. -/
def cpc0 : Cpc := { properties := .obj [("object-uri", .str "/api/cpcs/1")] }

/-- A concrete partition manager scoped to the CPC. -/
def mgr0 : PartitionManager := PartitionManager.init cpc0

/-- A concrete partition with an object URI. -/
def part0 : Partition :=
  { manager := mgr0, properties := .obj [("object-uri", .str "/api/partitions/1")] }

/-- A concrete well-formed response to the list GET: one partition item. -/
def listResponse0 : Json :=
  .obj [("partitions", .arr [.obj [("object-uri", .str "/p1")]])]

/-- A concrete well-formed response to a POST: it carries an object URI
and a status member. -/
def postResponse0 : Json :=
  .obj [("object-uri", .str "/api/partitions/new"), ("status", .str "stopped")]

/-- A session whose responses are all well formed. -/
def sessionOk : Session :=
  { getResp := fun _ => .ok listResponse0
    postResp := fun _ _ _ => .ok postResponse0
    deleteResp := fun _ => .ok .null }

/-- A session whose GET responses are empty (falsy). -/
def sessionEmpty : Session :=
  { getResp := fun _ => .ok .null
    postResp := fun _ _ _ => .ok .null
    deleteResp := fun _ => .ok .null }

/-- A session whose GET responses are truthy but lack the expected
members. -/
def sessionNoKey : Session :=
  { getResp := fun _ => .ok (.obj [("foo", .null)])
    postResp := fun _ _ _ => .ok .null
    deleteResp := fun _ => .ok .null }

/-- A session returning the well-formed list response for the partitions
URI, and a resource with one property value for every other GET. -/
def sessionDiff1 : Session :=
  { getResp := fun uri =>
      if uri == "/api/cpcs/1/partitions" then .ok listResponse0
      else .ok (.obj [("mem", .num 1)])
    postResp := fun _ _ _ => .ok .null
    deleteResp := fun _ => .ok .null }

/-- Like the previous session, agreeing with it on the partitions URI but
answering every other GET with a different property value. -/
def sessionDiff2 : Session :=
  { getResp := fun uri =>
      if uri == "/api/cpcs/1/partitions" then .ok listResponse0
      else .ok (.obj [("mem", .num 2)])
    postResp := fun _ _ _ => .ok .null
    deleteResp := fun _ => .ok .null }

/-! ### Helper lemmas -/

/-- A value with a readable member is a mapping with at least one entry,
hence truthy. -/
lemma getItem_ok_not_falsy {j v : Json} {k : String}
    (h : j.getItem k = Except.ok v) : j.falsy = false := by
  cases j with
  | obj fields =>
      cases fields with
      | nil => simp [Json.getItem, List.find?] at h
      | cons p rest => simp [Json.falsy]
  | null => simp [Json.getItem] at h
  | bool b => simp [Json.getItem] at h
  | num n => simp [Json.getItem] at h
  | str s => simp [Json.getItem] at h
  | arr elems => simp [Json.getItem] at h

/-- Without full properties, the list loop builds one partition per item,
in order, from the item's properties, and issues no request. -/
lemma buildPartitions_false (m : PartitionManager) (s : Session) :
    ∀ items : List Json,
      buildPartitions m s false items =
        (Except.ok (items.map (fun j => ⟨m, j⟩)), []) := by
  intro items
  induction items with
  | nil => rfl
  | cons j rest ih => simp [buildPartitions, Partition.init, ih, Except.map]

/-- With full properties, when every item's pull succeeds, the list loop
returns the pulled state of each constructed partition, in order. -/
lemma buildPartitions_true_ok (m : PartitionManager) (s : Session) :
    ∀ items : List Json,
      (∀ j ∈ items, (Partition.pull_full_properties ⟨m, j⟩ s).1 = .ok ()) →
      (buildPartitions m s true items).1 =
        .ok (items.map (fun j => (Partition.pull_full_properties ⟨m, j⟩ s).2.1)) := by
  intro items
  induction items with
  | nil => intro _; rfl
  | cons j rest ih =>
      intro h
      have hj := h j (by simp)
      have hrest := ih (fun x hx => h x (by simp [hx]))
      rcases hpe : Partition.pull_full_properties ⟨m, j⟩ s with ⟨r, p2, reqs⟩
      rw [hpe] at hj
      simp only at hj
      rcases hbr : buildPartitions m s true rest with ⟨res, reqs2⟩
      rw [hbr] at hrest
      simp only at hrest
      simp [buildPartitions, Partition.init, hpe, hj, hbr, hrest, Except.map]

/-! ### Claims -/

/-- C1: For every session response whose partitions member is a list of
property mappings, PartitionManager.list returns a list of Partition
objects of the same length and in the same order, where the i-th Partition
is constructed from the i-th property mapping of the response; when
full_properties is true, each returned Partition has additionally pulled
its full properties. -/
theorem claim_C1 (m : PartitionManager) (s : Session) (u : String)
    (res : Json) (items : List Json)
    (hu : m.cpc.get_property "object-uri" = .ok (.str u))
    (hres : s.getResp (u ++ "/partitions") = .ok res)
    (hmem : res.getItem "partitions" = .ok (.arr items))
    (hmaps : ∀ j ∈ items, ∃ fields, j = Json.obj fields)
    (hpull : ∀ j ∈ items,
        (Partition.pull_full_properties ⟨m, j⟩ s).1 = .ok ()) :
    (m.list s false).1 = .ok (items.map (fun j => ⟨m, j⟩)) ∧
    (m.list s true).1 =
      .ok (items.map (fun j => (Partition.pull_full_properties ⟨m, j⟩ s).2.1)) := by
  have hfalsy : res.falsy = false := getItem_ok_not_falsy hmem
  constructor
  · simp [PartitionManager.list, hu, hres, hmem, hfalsy, Except.bind,
      Json.expectStr, Json.iterate, buildPartitions_false]
  · have hbuild := buildPartitions_true_ok m s items hpull
    rcases hb : buildPartitions m s true items with ⟨bres, breqs⟩
    rw [hb] at hbuild
    simp only at hbuild
    simp [PartitionManager.list, hu, hres, hmem, hfalsy, Except.bind,
      Json.expectStr, Json.iterate, hb, hbuild]

/-- C1 witness: the theorem applied to the concrete manager, session and
response item used throughout. -/
theorem claim_C1_witness :
    (mgr0.list sessionOk false).1 =
      .ok ([Json.obj [("object-uri", Json.str "/p1")]].map
        (fun j => ⟨mgr0, j⟩)) ∧
    (mgr0.list sessionOk true).1 =
      .ok ([Json.obj [("object-uri", Json.str "/p1")]].map
        (fun j => (Partition.pull_full_properties ⟨mgr0, j⟩ sessionOk).2.1)) :=
  claim_C1 mgr0 sessionOk "/api/cpcs/1" listResponse0
    [Json.obj [("object-uri", Json.str "/p1")]]
    rfl rfl rfl
    (by intro j hj; simp at hj; exact ⟨_, hj⟩)
    (by intro j hj; simp at hj; subst hj; rfl)

/-- C6: For every CPC object c, the manager PartitionManager(c) has its
cpc property equal to c itself, so the manager stays scoped to the parent
it was created for. -/
theorem claim_C6 : ∀ c : Cpc, (PartitionManager.init c).cpc = c :=
  fun _ => rfl

/-- C9: For every session whose GET on the partitions URI returns an empty
or absent response (a falsy value), PartitionManager.list returns the
empty list without raising and without reading a partitions member. -/
theorem claim_C9 (m : PartitionManager) (s : Session) (u : String)
    (res : Json) (fp : Bool)
    (hu : m.cpc.get_property "object-uri" = .ok (.str u))
    (hres : s.getResp (u ++ "/partitions") = .ok res)
    (hfalsy : res.falsy = true) :
    m.list s fp = (.ok [], [.get (u ++ "/partitions")]) := by
  simp [PartitionManager.list, hu, hres, hfalsy, Except.bind, Json.expectStr]

/-- C9 witness: the theorem applied to the concrete manager and the
session answering every GET with an absent (null) response. -/
theorem claim_C9_witness :
    Json.falsy Json.null = true ∧
    mgr0.list sessionEmpty true = (.ok [], [.get ("/api/cpcs/1" ++ "/partitions")]) :=
  ⟨rfl, claim_C9 mgr0 sessionEmpty "/api/cpcs/1" Json.null true rfl rfl rfl⟩

/-- C2 counterexample: the session's GET succeeds (returns a truthy
response without a partitions member), yet PartitionManager.list raises a
KeyError — an error the session did not raise — so an operation can raise
without the underlying session call raising. -/
theorem claim_C2_counterexample :
    sessionNoKey.getResp ("/api/cpcs/1" ++ "/partitions") =
      .ok (.obj [("foo", .null)]) ∧
    (mgr0.list sessionNoKey false).1 = .error (.keyError "partitions") :=
  ⟨rfl, rfl⟩

/-- C2 (amended): provided the scoping resource's object-uri property is a
string and every successful session response is well formed (a truthy list
response has a partitions member holding a list, a create response has an
object-uri member), each public operation raises an error iff the
underlying session call raises one, and the error that propagates is
exactly the session's error, passed through unmodified. -/
theorem claim_C2 (m : PartitionManager) (p : Partition) (s : Session)
    (u v : String) (props : Json) (w : Bool)
    (hu : m.cpc.get_property "object-uri" = .ok (.str u))
    (hv : p.get_property "object-uri" = .ok (.str v))
    (hlist : ∀ res, s.getResp (u ++ "/partitions") = .ok res →
        res.falsy = false →
        ∃ items, res.getItem "partitions" = .ok (.arr items))
    (hcreate : ∀ res,
        s.postResp (u ++ "/partitions") (some props) true = .ok res →
        ∃ r, res.getItem "object-uri" = .ok r) :
    errOf (m.list s false).1 = sessErrOf (s.getResp (u ++ "/partitions")) ∧
    errOf (m.create s props).1 =
      sessErrOf (s.postResp (u ++ "/partitions") (some props) true) ∧
    errOf (p.start s w).1 =
      sessErrOf (s.postResp (v ++ "/operations/start") none w) ∧
    errOf (p.stop s w).1 =
      sessErrOf (s.postResp (v ++ "/operations/stop") none w) ∧
    errOf (p.delete s).1 = sessErrOf (s.deleteResp v) ∧
    errOf (p.update_properties s props).1 =
      sessErrOf (s.postResp v (some props) true) := by
  refine ⟨?_, ?_, ?_, ?_, ?_, ?_⟩
  · cases hres : s.getResp (u ++ "/partitions") with
    | error e =>
        simp [PartitionManager.list, hu, hres, Except.bind, Json.expectStr,
          errOf, sessErrOf]
    | ok res =>
        by_cases hf : res.falsy = true
        · simp [PartitionManager.list, hu, hres, hf, Except.bind,
            Json.expectStr, errOf, sessErrOf]
        · have hf2 : res.falsy = false := by
            cases h2 : res.falsy
            · rfl
            · exact absurd h2 hf
          obtain ⟨items, hmem⟩ := hlist res hres hf2
          simp [PartitionManager.list, hu, hres, hf2, hmem, Except.bind,
            Json.expectStr, Json.iterate, buildPartitions_false,
            errOf, sessErrOf]
  · cases hres : s.postResp (u ++ "/partitions") (some props) true with
    | error e =>
        simp [PartitionManager.create, hu, hres, Except.bind, Json.expectStr,
          errOf, sessErrOf]
    | ok res =>
        obtain ⟨r, hr⟩ := hcreate res hres
        simp [PartitionManager.create, hu, hres, hr, Except.bind,
          Json.expectStr, errOf, sessErrOf]
  · cases hres : s.postResp (v ++ "/operations/start") none w with
    | error e =>
        simp [Partition.start, hv, hres, Except.bind, Json.expectStr,
          errOf, sessErrOf]
    | ok res =>
        simp [Partition.start, hv, hres, Except.bind, Json.expectStr,
          errOf, sessErrOf]
  · cases hres : s.postResp (v ++ "/operations/stop") none w with
    | error e =>
        simp [Partition.stop, hv, hres, Except.bind, Json.expectStr,
          errOf, sessErrOf]
    | ok res =>
        simp [Partition.stop, hv, hres, Except.bind, Json.expectStr,
          errOf, sessErrOf]
  · cases hres : s.deleteResp v with
    | error e =>
        simp [Partition.delete, hv, hres, Except.bind, Json.expectStr,
          errOf, sessErrOf]
    | ok res =>
        simp [Partition.delete, hv, hres, Except.bind, Json.expectStr,
          errOf, sessErrOf]
  · cases hres : s.postResp v (some props) true with
    | error e =>
        simp [Partition.update_properties, hv, hres, Except.bind,
          Json.expectStr, errOf, sessErrOf]
    | ok res =>
        simp [Partition.update_properties, hv, hres, Except.bind,
          Json.expectStr, errOf, sessErrOf]

/-- C2 witness: the amended theorem applied to the concrete manager,
partition and the well-formed session. -/
theorem claim_C2_witness :
    errOf (mgr0.list sessionOk false).1 =
      sessErrOf (sessionOk.getResp ("/api/cpcs/1" ++ "/partitions")) ∧
    errOf (mgr0.create sessionOk (Json.obj [("name", Json.str "new")])).1 =
      sessErrOf (sessionOk.postResp ("/api/cpcs/1" ++ "/partitions")
        (some (Json.obj [("name", Json.str "new")])) true) ∧
    errOf (part0.start sessionOk true).1 =
      sessErrOf (sessionOk.postResp
        ("/api/partitions/1" ++ "/operations/start") none true) ∧
    errOf (part0.stop sessionOk true).1 =
      sessErrOf (sessionOk.postResp
        ("/api/partitions/1" ++ "/operations/stop") none true) ∧
    errOf (part0.delete sessionOk).1 =
      sessErrOf (sessionOk.deleteResp "/api/partitions/1") ∧
    errOf (part0.update_properties sessionOk
        (Json.obj [("name", Json.str "new")])).1 =
      sessErrOf (sessionOk.postResp "/api/partitions/1"
        (some (Json.obj [("name", Json.str "new")])) true) :=
  claim_C2 mgr0 part0 sessionOk "/api/cpcs/1" "/api/partitions/1"
    (Json.obj [("name", Json.str "new")]) true rfl rfl
    (by intro res h hf; cases h; exact ⟨_, rfl⟩)
    (by intro res h; cases h; exact ⟨_, rfl⟩)

/-- C3: For every properties mapping, PartitionManager.create posts that
mapping as the request body to the URI formed by appending partitions to
the parent CPC's object-uri property, and returns the value of the
object-uri member of the session's response. -/
theorem claim_C3 (m : PartitionManager) (s : Session) (u : String)
    (props res v : Json)
    (hu : m.cpc.get_property "object-uri" = .ok (.str u))
    (hpost : s.postResp (u ++ "/partitions") (some props) true = .ok res)
    (hres : res.getItem "object-uri" = .ok v) :
    m.create s props =
      (.ok v, [.post (u ++ "/partitions") (some props) true]) := by
  simp [PartitionManager.create, hu, hpost, hres, Except.bind, Json.expectStr]

/-- C3 witness: create against the concrete manager and the well-formed
session posts to the partitions URI and returns the new object URI. -/
theorem claim_C3_witness :
    mgr0.create sessionOk (Json.obj [("name", Json.str "new")]) =
      (.ok (Json.str "/api/partitions/new"),
       [.post ("/api/cpcs/1" ++ "/partitions")
         (some (Json.obj [("name", Json.str "new")])) true]) :=
  claim_C3 mgr0 sessionOk "/api/cpcs/1" (Json.obj [("name", Json.str "new")])
    postResponse0 (Json.str "/api/partitions/new") rfl rfl rfl

/-- C4: Every operation issues its request to a URI formatted from a
stored object-uri property: list sends a GET to the CPC's object-uri plus
partitions; start posts to the partition's object-uri plus operations
start; stop posts to the partition's object-uri plus operations stop;
delete issues a delete on exactly the partition's object-uri;
update_properties posts the given properties to exactly the partition's
object-uri. -/
theorem claim_C4 (m : PartitionManager) (p : Partition) (s : Session)
    (u v : String) (props : Json) (fp w : Bool)
    (hu : m.cpc.get_property "object-uri" = .ok (.str u))
    (hv : p.get_property "object-uri" = .ok (.str v)) :
    ((m.list s fp).2).head? = some (.get (u ++ "/partitions")) ∧
    (p.start s w).2.2 = [.post (v ++ "/operations/start") none w] ∧
    (p.stop s w).2.2 = [.post (v ++ "/operations/stop") none w] ∧
    (p.delete s).2.2 = [.delete v] ∧
    (p.update_properties s props).2.2 = [.post v (some props) true] := by
  refine ⟨?_, ?_, ?_, ?_, ?_⟩
  · cases hres : s.getResp (u ++ "/partitions") with
    | error e =>
        simp [PartitionManager.list, hu, hres, Except.bind, Json.expectStr]
    | ok res =>
        by_cases hf : res.falsy = true
        · simp [PartitionManager.list, hu, hres, hf, Except.bind,
            Json.expectStr]
        · have hf2 : res.falsy = false := by
            cases h2 : res.falsy
            · rfl
            · exact absurd h2 hf
          cases hmem : res.getItem "partitions" with
          | error e =>
              simp [PartitionManager.list, hu, hres, hf2, hmem, Except.bind,
                Json.expectStr]
          | ok itemsv =>
              cases hit : itemsv.iterate with
              | error e =>
                  simp [PartitionManager.list, hu, hres, hf2, hmem, hit,
                    Except.bind, Json.expectStr]
              | ok items =>
                  rcases hb : buildPartitions m s fp items with ⟨bres, breqs⟩
                  simp [PartitionManager.list, hu, hres, hf2, hmem, hit, hb,
                    Except.bind, Json.expectStr]
  · cases hres : s.postResp (v ++ "/operations/start") none w with
    | error e => simp [Partition.start, hv, hres, Except.bind, Json.expectStr]
    | ok res => simp [Partition.start, hv, hres, Except.bind, Json.expectStr]
  · cases hres : s.postResp (v ++ "/operations/stop") none w with
    | error e => simp [Partition.stop, hv, hres, Except.bind, Json.expectStr]
    | ok res => simp [Partition.stop, hv, hres, Except.bind, Json.expectStr]
  · cases hres : s.deleteResp v with
    | error e => simp [Partition.delete, hv, hres, Except.bind, Json.expectStr]
    | ok res => simp [Partition.delete, hv, hres, Except.bind, Json.expectStr]
  · cases hres : s.postResp v (some props) true with
    | error e =>
        simp [Partition.update_properties, hv, hres, Except.bind,
          Json.expectStr]
    | ok res =>
        simp [Partition.update_properties, hv, hres, Except.bind,
          Json.expectStr]

/-- C4 witness: the theorem applied to the concrete manager, partition and
well-formed session. -/
theorem claim_C4_witness :
    ((mgr0.list sessionOk true).2).head? =
      some (.get ("/api/cpcs/1" ++ "/partitions")) ∧
    (part0.start sessionOk false).2.2 =
      [.post ("/api/partitions/1" ++ "/operations/start") none false] ∧
    (part0.stop sessionOk false).2.2 =
      [.post ("/api/partitions/1" ++ "/operations/stop") none false] ∧
    (part0.delete sessionOk).2.2 = [.delete "/api/partitions/1"] ∧
    (part0.update_properties sessionOk
        (Json.obj [("name", Json.str "new")])).2.2 =
      [.post "/api/partitions/1"
        (some (Json.obj [("name", Json.str "new")])) true] :=
  claim_C4 mgr0 part0 sessionOk "/api/cpcs/1" "/api/partitions/1"
    (Json.obj [("name", Json.str "new")]) true false rfl rfl

/-- C5 counterexample: Partition.start hands the session's JSON response
back to the caller as the raw JSON value of the HTTP layer, unchanged —
the response is not translated into a local object. -/
theorem claim_C5_counterexample :
    sessionOk.postResp ("/api/partitions/1" ++ "/operations/start")
      none true = .ok postResponse0 ∧
    (part0.start sessionOk true).1 = .ok postResponse0 :=
  ⟨rfl, rfl⟩

/-- C5 (amended): only PartitionManager.list translates the JSON response
into local objects (Partition objects built from the response items);
create returns the object-uri member of the raw JSON response, and start
and stop return the session's raw JSON response unchanged. -/
theorem claim_C5 (m : PartitionManager) (p : Partition) (s : Session)
    (u v : String) (props listRes createRes startRes stopRes ov : Json)
    (items : List Json) (w : Bool)
    (hu : m.cpc.get_property "object-uri" = .ok (.str u))
    (hv : p.get_property "object-uri" = .ok (.str v))
    (hlist : s.getResp (u ++ "/partitions") = .ok listRes)
    (hmem : listRes.getItem "partitions" = .ok (.arr items))
    (hcreate : s.postResp (u ++ "/partitions") (some props) true =
      .ok createRes)
    (hov : createRes.getItem "object-uri" = .ok ov)
    (hstart : s.postResp (v ++ "/operations/start") none w = .ok startRes)
    (hstop : s.postResp (v ++ "/operations/stop") none w = .ok stopRes) :
    (m.list s false).1 = .ok (items.map (fun j => ⟨m, j⟩)) ∧
    (m.create s props).1 = .ok ov ∧
    (p.start s w).1 = .ok startRes ∧
    (p.stop s w).1 = .ok stopRes := by
  have hfalsy : listRes.falsy = false := getItem_ok_not_falsy hmem
  refine ⟨?_, ?_, ?_, ?_⟩
  · simp [PartitionManager.list, hu, hlist, hmem, hfalsy, Except.bind,
      Json.expectStr, Json.iterate, buildPartitions_false]
  · simp [PartitionManager.create, hu, hcreate, hov, Except.bind,
      Json.expectStr]
  · simp [Partition.start, hv, hstart, Except.bind, Json.expectStr]
  · simp [Partition.stop, hv, hstop, Except.bind, Json.expectStr]

/-- C5 witness: the amended theorem applied to the concrete manager,
partition and well-formed session. -/
theorem claim_C5_witness :
    (mgr0.list sessionOk false).1 =
      .ok ([Json.obj [("object-uri", Json.str "/p1")]].map
        (fun j => ⟨mgr0, j⟩)) ∧
    (mgr0.create sessionOk (Json.obj [("name", Json.str "new")])).1 =
      .ok (Json.str "/api/partitions/new") ∧
    (part0.start sessionOk true).1 = .ok postResponse0 ∧
    (part0.stop sessionOk true).1 = .ok postResponse0 :=
  claim_C5 mgr0 part0 sessionOk "/api/cpcs/1" "/api/partitions/1"
    (Json.obj [("name", Json.str "new")]) listResponse0 postResponse0
    postResponse0 postResponse0 (Json.str "/api/partitions/new")
    [Json.obj [("object-uri", Json.str "/p1")]] true
    rfl rfl rfl rfl rfl rfl rfl rfl

/-- Whether a Python error is a failed assertion. -/
def errIsAssert : PyError → Bool
  | .assertionError => true
  | _ => false

/-- An erroneous outcome is a failed assertion exactly when its error
is. -/
lemma isAssertionError_error {α : Type} (e : PyError) :
    isAssertionError (Except.error e : Except PyError α) = errIsAssert e := by
  cases e <;> rfl

/-- A successful outcome is never a failed assertion. -/
lemma isAssertionError_ok {α : Type} (a : α) :
    isAssertionError (Except.ok a : Except PyError α) = false := rfl

/-- Subscripting never fails an assertion: its errors are KeyError or
TypeError. -/
lemma errIsAssert_getItem {j : Json} {k : String} {e : PyError}
    (h : j.getItem k = .error e) : errIsAssert e = false := by
  cases j with
  | obj fields =>
      cases hf : fields.find? (fun p => p.1 == k) with
      | none =>
          simp [Json.getItem, hf] at h
          subst h
          rfl
      | some q => simp [Json.getItem, hf] at h
  | null => simp [Json.getItem] at h; subst h; rfl
  | bool b => simp [Json.getItem] at h; subst h; rfl
  | num n => simp [Json.getItem] at h; subst h; rfl
  | str s => simp [Json.getItem] at h; subst h; rfl
  | arr elems => simp [Json.getItem] at h; subst h; rfl

/-- Requiring a string never fails an assertion: its error is TypeError. -/
lemma errIsAssert_expectStr {j : Json} {e : PyError}
    (h : Json.expectStr j = .error e) : errIsAssert e = false := by
  cases j with
  | str s => simp [Json.expectStr] at h
  | null => simp [Json.expectStr] at h; subst h; rfl
  | bool b => simp [Json.expectStr] at h; subst h; rfl
  | num n => simp [Json.expectStr] at h; subst h; rfl
  | arr elems => simp [Json.expectStr] at h; subst h; rfl
  | obj fields => simp [Json.expectStr] at h; subst h; rfl

/-- Iteration never fails an assertion: its error is TypeError. -/
lemma errIsAssert_iterate {j : Json} {e : PyError}
    (h : j.iterate = .error e) : errIsAssert e = false := by
  cases j with
  | null => simp [Json.iterate] at h; subst h; rfl
  | bool b => simp [Json.iterate] at h; subst h; rfl
  | num n => simp [Json.iterate] at h; subst h; rfl
  | str s => simp [Json.iterate] at h
  | arr elems => simp [Json.iterate] at h
  | obj fields => simp [Json.iterate] at h

/-- Reading a property and requiring a string never fails an assertion. -/
lemma errIsAssert_lookup {j : Json} {k : String} {e : PyError}
    (h : (j.getItem k).bind Json.expectStr = .error e) :
    errIsAssert e = false := by
  cases hg : j.getItem k with
  | error e2 =>
      rw [hg] at h
      simp [Except.bind] at h
      subst h
      exact errIsAssert_getItem hg
  | ok v =>
      rw [hg] at h
      simp [Except.bind] at h
      exact errIsAssert_expectStr h

/-- Pulling full properties never fails an assertion. -/
lemma errIsAssert_pull {p : Partition} {s : Session} {e : PyError}
    (h : (p.pull_full_properties s).1 = .error e) : errIsAssert e = false := by
  unfold Partition.pull_full_properties at h
  split at h
  · rename_i e2 heq
    simp at h
    subst h
    exact errIsAssert_lookup heq
  · rename_i uri heq
    split at h
    · rename_i e3 heq2
      simp at h
      subst h
      rfl
    · rename_i full heq2
      simp at h

/-- The list loop never fails an assertion: the partitions it constructs
always receive the PartitionManager itself as the manager. -/
lemma errIsAssert_buildPartitions (m : PartitionManager) (s : Session)
    (fp : Bool) :
    ∀ (items : List Json) (e : PyError),
      (buildPartitions m s fp items).1 = .error e → errIsAssert e = false := by
  intro items
  induction items with
  | nil => intro e h; cases fp <;> simp [buildPartitions] at h
  | cons j rest ih =>
      intro e h
      cases fp with
      | false =>
          rcases hb : buildPartitions m s false rest with ⟨res, reqs⟩
          cases res with
          | error e2 =>
              simp [buildPartitions, Partition.init, hb, Except.map] at h
              subst h
              exact ih e2 (by rw [hb])
          | ok l =>
              simp [buildPartitions, Partition.init, hb, Except.map] at h
      | true =>
          rcases hp : Partition.pull_full_properties ⟨m, j⟩ s with ⟨r, p2, reqs⟩
          cases r with
          | error e2 =>
              simp [buildPartitions, Partition.init, hp] at h
              subst h
              exact errIsAssert_pull (p := ⟨m, j⟩) (s := s) (by rw [hp])
          | ok unitv =>
              rcases hb : buildPartitions m s true rest with ⟨res, reqs2⟩
              cases res with
              | error e2 =>
                  simp [buildPartitions, Partition.init, hp, hb,
                    Except.map] at h
                  subst h
                  exact ih e2 (by rw [hb])
              | ok l =>
                  simp [buildPartitions, Partition.init, hp, hb,
                    Except.map] at h

/-- An error raised by PartitionManager.list is never a failed
assertion. -/
lemma errIsAssert_list {m : PartitionManager} {s : Session} {fp : Bool}
    {e : PyError} (h : (m.list s fp).1 = .error e) : errIsAssert e = false := by
  unfold PartitionManager.list at h
  split at h
  · rename_i e2 heq
    simp at h
    subst h
    exact errIsAssert_lookup heq
  · rename_i u heq
    dsimp only at h
    split at h
    · rename_i e3 heq2
      simp at h
      subst h
      rfl
    · rename_i res heq2
      split at h
      · simp at h
      · rename_i hfa
        split at h
        · rename_i e4 heq3
          simp at h
          subst h
          exact errIsAssert_getItem heq3
        · rename_i itemsv heq3
          split at h
          · rename_i e5 heq4
            simp at h
            subst h
            exact errIsAssert_iterate heq4
          · rename_i items heq4
            rcases hb : buildPartitions m s fp items with ⟨res2, reqs⟩
            rw [hb] at h
            simp at h
            exact errIsAssert_buildPartitions m s fp items e
              (by rw [hb]; simpa using h)

/-- PartitionManager.list begins by issuing the GET on the CPC's
object-uri plus partitions: the first request of its trace is that GET. -/
lemma list_issues_get (m : PartitionManager) (s : Session) (u : String)
    (fp : Bool) (hu : m.cpc.get_property "object-uri" = .ok (.str u)) :
    ((m.list s fp).2).head? = some (.get (u ++ "/partitions")) := by
  cases hres : s.getResp (u ++ "/partitions") with
  | error e =>
      simp [PartitionManager.list, hu, hres, Except.bind, Json.expectStr]
  | ok res =>
      by_cases hf : res.falsy = true
      · simp [PartitionManager.list, hu, hres, hf, Except.bind, Json.expectStr]
      · have hf2 : res.falsy = false := by
          cases h2 : res.falsy
          · rfl
          · exact absurd h2 hf
        cases hmem : res.getItem "partitions" with
        | error e =>
            simp [PartitionManager.list, hu, hres, hf2, hmem, Except.bind,
              Json.expectStr]
        | ok itemsv =>
            cases hit : itemsv.iterate with
            | error e =>
                simp [PartitionManager.list, hu, hres, hf2, hmem, hit,
                  Except.bind, Json.expectStr]
            | ok items =>
                rcases hb : buildPartitions m s fp items with ⟨bres, breqs⟩
                simp [PartitionManager.list, hu, hres, hf2, hmem, hit, hb,
                  Except.bind, Json.expectStr]

/-- C7 counterexample: two sessions that return the same JSON response to
the partitions GET, yet PartitionManager.list (with full properties
requested) yields different partition lists, because the result also
depends on the responses to the per-partition GETs. -/
theorem claim_C7_counterexample :
    sessionDiff1.getResp ("/api/cpcs/1" ++ "/partitions") =
      sessionDiff2.getResp ("/api/cpcs/1" ++ "/partitions") ∧
    (mgr0.list sessionDiff1 true).1 =
      .ok [⟨mgr0, .obj [("mem", .num 1)]⟩] ∧
    (mgr0.list sessionDiff2 true).1 =
      .ok [⟨mgr0, .obj [("mem", .num 2)]⟩] ∧
    (mgr0.list sessionDiff1 true).1 ≠ (mgr0.list sessionDiff2 true).1 := by
  have h1 : (mgr0.list sessionDiff1 true).1 =
      .ok [(⟨mgr0, .obj [("mem", .num 1)]⟩ : Partition)] := rfl
  have h2 : (mgr0.list sessionDiff2 true).1 =
      .ok [(⟨mgr0, .obj [("mem", .num 2)]⟩ : Partition)] := rfl
  refine ⟨rfl, h1, h2, ?_⟩
  intro h
  rw [h1, h2] at h
  simp at h

/-- C7 (amended): PartitionManager.list holds no cache: every call issues
a fresh GET to the session (the first request of its trace is the GET on
the partitions URI), and without full properties its result is a
deterministic function of the session's response to that GET alone; with
full properties the result additionally depends on the responses to the
per-partition GETs issued to pull full properties. -/
theorem claim_C7 (m : PartitionManager) (s1 s2 : Session) (u : String)
    (fp : Bool)
    (hu : m.cpc.get_property "object-uri" = .ok (.str u))
    (hsame : s1.getResp (u ++ "/partitions") = s2.getResp (u ++ "/partitions")) :
    ((m.list s1 fp).2).head? = some (.get (u ++ "/partitions")) ∧
    m.list s1 false = m.list s2 false := by
  refine ⟨list_issues_get m s1 u fp hu, ?_⟩
  cases hres : s2.getResp (u ++ "/partitions") with
  | error e =>
      simp [PartitionManager.list, hu, hsame, hres, Except.bind, Json.expectStr]
  | ok res =>
      by_cases hf : res.falsy = true
      · simp [PartitionManager.list, hu, hsame, hres, hf, Except.bind,
          Json.expectStr]
      · have hf2 : res.falsy = false := by
          cases h2 : res.falsy
          · rfl
          · exact absurd h2 hf
        cases hmem : res.getItem "partitions" with
        | error e =>
            simp [PartitionManager.list, hu, hsame, hres, hf2, hmem,
              Except.bind, Json.expectStr]
        | ok itemsv =>
            cases hit : itemsv.iterate with
            | error e =>
                simp [PartitionManager.list, hu, hsame, hres, hf2, hmem, hit,
                  Except.bind, Json.expectStr]
            | ok items =>
                simp [PartitionManager.list, hu, hsame, hres, hf2, hmem, hit,
                  Except.bind, Json.expectStr, buildPartitions_false]

/-- C7 witness: the amended theorem applied to the concrete manager and
the two sessions agreeing on the partitions GET. -/
theorem claim_C7_witness :
    ((mgr0.list sessionDiff1 true).2).head? =
      some (.get ("/api/cpcs/1" ++ "/partitions")) ∧
    mgr0.list sessionDiff1 false = mgr0.list sessionDiff2 false :=
  claim_C7 mgr0 sessionDiff1 sessionDiff2 "/api/cpcs/1" true rfl rfl

/-- C8: For every Partition object and every properties mapping,
update_properties and delete leave the local Partition object's stored
property mapping unchanged — their only effect is the single request
issued to the session — and in particular update_properties does not apply
the new property values to the local object. -/
theorem claim_C8 : ∀ (p : Partition) (s : Session) (props : Json),
    (p.update_properties s props).2.1 = p ∧
    (p.delete s).2.1 = p ∧
    (p.update_properties s props).2.2.length ≤ 1 ∧
    (p.delete s).2.2.length ≤ 1 := by
  intro p s props
  refine ⟨?_, ?_, ?_, ?_⟩
  · cases h : (p.get_property "object-uri").bind Json.expectStr with
    | error e => simp [Partition.update_properties, h]
    | ok uri =>
        cases h2 : s.postResp uri (some props) true with
        | error e => simp [Partition.update_properties, h, h2]
        | ok r => simp [Partition.update_properties, h, h2]
  · cases h : (p.get_property "object-uri").bind Json.expectStr with
    | error e => simp [Partition.delete, h]
    | ok uri =>
        cases h2 : s.deleteResp uri with
        | error e => simp [Partition.delete, h, h2]
        | ok r => simp [Partition.delete, h, h2]
  · cases h : (p.get_property "object-uri").bind Json.expectStr with
    | error e => simp [Partition.update_properties, h]
    | ok uri =>
        cases h2 : s.postResp uri (some props) true with
        | error e => simp [Partition.update_properties, h, h2]
        | ok r => simp [Partition.update_properties, h, h2]
  · cases h : (p.get_property "object-uri").bind Json.expectStr with
    | error e => simp [Partition.delete, h]
    | ok uri =>
        cases h2 : s.deleteResp uri with
        | error e => simp [Partition.delete, h, h2]
        | ok r => simp [Partition.delete, h, h2]

/-- C10: Partition.__init__ asserts that its manager argument is a
PartitionManager, so constructing a Partition with any other manager type
fails the assertion; every Partition produced through the public list path
receives the PartitionManager itself, so list never fails that
assertion. -/
theorem claim_C10 :
    (∀ (tag : String) (props : Json),
      Partition.init (.other tag) props = .error .assertionError) ∧
    (∀ (m : PartitionManager) (s : Session) (fp : Bool),
      isAssertionError (m.list s fp).1 = false) := by
  refine ⟨fun _ _ => rfl, ?_⟩
  intro m s fp
  cases hr : (m.list s fp).1 with
  | error e =>
      rw [isAssertionError_error]
      exact errIsAssert_list hr
  | ok l => rfl
